import Mathlib

set_option maxHeartbeats 800000

/- Shallow embedding of the weather sampling and aggregation engine
   (src/types.ts, src/utils.ts, src/wu-current-logger.ts). Machine numbers
   are modelled as exact rationals, file contents as parsed JSON documents,
   and the ambient clock and JS Date parsing as explicit arguments. -/

/-- JSON document values as produced by JSON.parse: numbers are exact
rationals, and there is no undefined value (JSON.parse never yields one).
When a JSON text repeats a key the last binding wins, which lookupField
mirrors by folding from the left and keeping the last match. -/
inductive Json where
  | jnull : Json
  | jbool : Bool → Json
  | jnum : ℚ → Json
  | jstr : String → Json
  | jarr : List Json → Json
  | jobj : List (String × Json) → Json

/-- Property lookup on a JS object built from a key-value list: later
bindings shadow earlier ones, an absent key gives undefined (none). -/
def lookupField (fields : List (String × Json)) (key : String) : Option Json :=
  fields.foldl (fun acc kv => if kv.1 = key then some kv.2 else acc) none

/-- JS property access parsed.key on a JSON.parse result: objects look the
key up, every other non-null value gives undefined (none). Access on a
parsed null throws; readDailyHighJson handles that case separately,
mirroring the try/catch of readDailyHigh (src/utils.ts). -/
def getField : Json → String → Option Json
  | Json.jobj fields, key => lookupField fields key
  | _, _ => none

/-- The JS nullish-coalescing operator x ?? fb applied to a possibly
undefined (none) JSON value: null and undefined fall back, everything else
passes through. -/
def coalesce (v : Option Json) (fb : Json) : Json :=
  match v with
  | none => fb
  | some Json.jnull => fb
  | some x => x

/-- The pattern typeof x === number ? x : null from readDailyHigh
(src/utils.ts lines 67-75): numeric values pass, anything else, including
a missing field, becomes null. -/
def numOrNull : Option Json → Json
  | some (Json.jnum q) => Json.jnum q
  | _ => Json.jnull

/-- Inner location record of the v3-location-point sub-feed
(src/types.ts, LocationPoint.location); all fields optional. -/
structure LocationRecord where
  city : Option String
  displayContext : Option String
  ianaTimeZone : Option String
  pwsId : Option String
  countryCode : Option String
deriving DecidableEq

/-- The v3-location-point sub-record (src/types.ts, LocationPoint). -/
structure LocationPoint where
  location : LocationRecord
deriving DecidableEq

/-- The v3-wx-observations-current sub-record (src/types.ts,
ObservationsCurrent); all fields optional. -/
structure ObservationsCurrent where
  temperature : Option ℚ
  validTimeUtc : Option ℚ
  validTimeLocal : Option String
  temperatureMax24Hour : Option ℚ
  temperatureMin24Hour : Option ℚ
  relativeHumidity : Option ℚ
  windSpeed : Option ℚ
  windDirectionCardinal : Option String
  pressureMeanSeaLevel : Option ℚ
  wxPhraseLong : Option String
deriving DecidableEq

/-- One composite entry of the aggregated feed (src/types.ts,
CompositeEntry); the hyphenated source fields v3-location-point and
v3-wx-observations-current are written in camel case. -/
structure CompositeEntry where
  id : Option String
  v3LocationPoint : Option LocationPoint
  v3WxObservationsCurrent : Option ObservationsCurrent
deriving DecidableEq

/-- The fallback predicate of selectLocation (src/utils.ts lines 18-25):
an entry whose location sub-record has city London and country code GB. -/
def isLondonGB (entry : CompositeEntry) : Bool :=
  match entry.v3LocationPoint with
  | some lp => lp.location.city == some "London" && lp.location.countryCode == some "GB"
  | none => false

/-- selectLocation (src/utils.ts lines 9-26): first the entry whose id
equals targetId, then the first London/GB entry, else none. -/
def selectLocation (entries : List CompositeEntry) (targetId : String) :
    Option CompositeEntry :=
  match entries.find? (fun entry => entry.id == some targetId) with
  | some entry => some entry
  | none => entries.find? isLondonGB

/-- Modelled from the spec: the Intl.DateTimeFormat civil-calendar rules
behind formatDateParts (src/utils.ts lines 28-36) are platform services
outside this repository. An IANA timezone is modelled by the function it
induces from an instant (epoch milliseconds) to the civil
(year, month, day) in that zone, which the spec says the formatter
renders as YYYY-MM-DD. -/
structure TimeZone where
  civil : ℤ → ℕ × ℕ × ℕ

/-- Decimal digit character: digitChar n is the digit of n for n ≤ 9. -/
def digitChar : ℕ → Char
  | 0 => '0' | 1 => '1' | 2 => '2' | 3 => '3' | 4 => '4'
  | 5 => '5' | 6 => '6' | 7 => '7' | 8 => '8' | 9 => '9'
  | _ => '0'

/-- formatDateParts (src/utils.ts lines 28-36), with the en-CA formatter
modelled from the spec: render the civil date of the instant in the zone
as the ten character string YYYY-MM-DD, zero padded. -/
def formatDateParts (date : ℤ) (timeZone : TimeZone) : String :=
  let c := timeZone.civil date
  String.mk [digitChar (c.1 / 1000 % 10), digitChar (c.1 / 100 % 10),
    digitChar (c.1 / 10 % 10), digitChar (c.1 % 10), '-',
    digitChar (c.2.1 / 10 % 10), digitChar (c.2.1 % 10), '-',
    digitChar (c.2.2 / 10 % 10), digitChar (c.2.2 % 10)]

/-- getLocalDateString (src/utils.ts lines 38-45). The ambient clock and
JS Date parsing are passed explicitly: now is the current instant, and
parseDate s is the instant denoted by new Date(s), none when that Date is
NaN. An empty string is falsy in JS, so it selects the current-time
branch of the conditional, and a NaN parse falls back to now. -/
def getLocalDateString (parseDate : String → Option ℤ) (now : ℤ)
    (validTimeLocal : Option String) (timeZone : TimeZone) : String :=
  let date : Option ℤ :=
    match validTimeLocal with
    | some s => if s = "" then some now else parseDate s
    | none => some now
  let safeDate : ℤ := date.getD now
  formatDateParts safeDate timeZone

/-- Shape check for calendar-date strings: ten characters, digits except
for dashes at positions 4 and 7 (YYYY-MM-DD). -/
def isYYYYMMDD (s : String) : Bool :=
  match s.toList with
  | [y1, y2, y3, y4, d1, m1, m2, d2, g1, g2] =>
    y1.isDigit && y2.isDigit && y3.isDigit && y4.isDigit && d1 == '-' &&
      m1.isDigit && m2.isDigit && d2 == '-' && g1.isDigit && g2.isDigit
  | _ => false

/-- calculateNextDelay (src/utils.ts lines 98-103) over exact integer
milliseconds: the delay from now to the next multiple of the poll
interval, Math.ceil becoming natural ceiling division. -/
def calculateNextDelay (now : ℕ) (intervalMinutes : ℕ) : ℕ :=
  let intervalMs := intervalMinutes * 60 * 1000
  let next := ((now + intervalMs - 1) / intervalMs) * intervalMs
  max (next - now) 0

/-- Loop body of fetchWithRetry (src/wu-current-logger.ts lines 70-94).
The transport maps an attempt number to its outcome. The result records,
in order, the backoff sleeps performed (one of 500 * 2 ^ (attempt - 1)
milliseconds after every failed attempt, inside the catch block), the
number of attempts made, and the final outcome: ok on the first success,
otherwise error with the last observed error (none only when zero
attempts run, where the code rethrows an undefined lastError). -/
def fetchWithRetryGo {ε ρ : Type} (transport : ℕ → Except ε ρ) :
    ℕ → ℕ → Option ε → List ℕ × ℕ × Except (Option ε) ρ
  | _, 0, lastError => ([], 0, Except.error lastError)
  | attempt, remaining + 1, _ =>
    match transport attempt with
    | Except.ok r => ([], 1, Except.ok r)
    | Except.error e =>
      let rest := fetchWithRetryGo transport (attempt + 1) remaining (some e)
      (500 * 2 ^ (attempt - 1) :: rest.1, rest.2.1 + 1, rest.2.2)

/-- fetchWithRetry (src/wu-current-logger.ts lines 70-94): run up to
attempts attempts starting from attempt number 1. -/
def fetchWithRetry {ε ρ : Type} (transport : ℕ → Except ε ρ) (attempts : ℕ) :
    List ℕ × ℕ × Except (Option ε) ρ :=
  fetchWithRetryGo transport 1 attempts none

/-- DailyHighRecord (src/types.ts): the typed per-day aggregate; number
fields are exact rationals, nullable fields are options. -/
structure DailyHighRecord where
  date_local : String
  timezone : String
  samples : ℚ
  high_temperatureC : Option ℚ
  high_at_validTimeLocal : Option String
  last_seen_temperatureC : Option ℚ
  last_seen_validTimeLocal : Option String
deriving DecidableEq

/-- Aggregate update of logOnce (src/wu-current-logger.ts lines 159-182):
samples is incremented; when the sample temperature is numeric and the
stored high is unset or strictly smaller, the high and its timestamp are
replaced, the timestamp by validTimeLocal ?? highAt; the last-seen pair
is overwritten unconditionally; date_local and timezone are refreshed. -/
def updateDailyHigh (dailyHigh : DailyHighRecord) (dateLocal timeZone : String)
    (temperatureC : Option ℚ) (validTimeLocal : Option String) : DailyHighRecord :=
  let newHigh : Option ℚ × Option String :=
    match temperatureC, dailyHigh.high_temperatureC with
    | some t, none =>
      (some t, Option.orElse validTimeLocal fun _ => dailyHigh.high_at_validTimeLocal)
    | some t, some h =>
      if h < t then
        (some t, Option.orElse validTimeLocal fun _ => dailyHigh.high_at_validTimeLocal)
      else
        (dailyHigh.high_temperatureC, dailyHigh.high_at_validTimeLocal)
    | none, _ => (dailyHigh.high_temperatureC, dailyHigh.high_at_validTimeLocal)
  { date_local := dateLocal
    timezone := timeZone
    samples := dailyHigh.samples + 1
    high_temperatureC := newHigh.1
    high_at_validTimeLocal := newHigh.2
    last_seen_temperatureC := temperatureC
    last_seen_validTimeLocal := validTimeLocal }

/-- Runtime shape of the record readDailyHigh returns: the sanitizing
expressions of src/utils.ts lines 63-77 always produce a JSON value
(coalesce and numOrNull are total into Json), so no field of the result
is undefined, though a corrupt file can still leave a field at an
unexpected type (for example a string where samples is declared
numeric). -/
structure DailyHighJS where
  date_local : Json
  timezone : Json
  samples : Json
  high_temperatureC : Json
  high_at_validTimeLocal : Json
  last_seen_temperatureC : Json
  last_seen_validTimeLocal : Json

/-- The zero-valued aggregate of the catch branch of readDailyHigh
(src/utils.ts lines 78-88). -/
def zeroDailyHighJS (dateLocal timeZone : String) : DailyHighJS :=
  { date_local := Json.jstr dateLocal
    timezone := Json.jstr timeZone
    samples := Json.jnum 0
    high_temperatureC := Json.jnull
    high_at_validTimeLocal := Json.jnull
    last_seen_temperatureC := Json.jnull
    last_seen_validTimeLocal := Json.jnull }

/-- Body of the try block of readDailyHigh (src/utils.ts lines 60-77) on
a successfully parsed document. Property access on a parsed null throws
and lands in the catch branch, yielding the zero aggregate; on any other
value each field is sanitized with ?? fallbacks and typeof checks. -/
def readDailyHighJson (parsed : Json) (dateLocal timeZone : String) : DailyHighJS :=
  match parsed with
  | Json.jnull => zeroDailyHighJS dateLocal timeZone
  | _ =>
    { date_local := coalesce (getField parsed "date_local") (Json.jstr dateLocal)
      timezone := coalesce (getField parsed "timezone") (Json.jstr timeZone)
      samples := coalesce (getField parsed "samples") (Json.jnum 0)
      high_temperatureC := numOrNull (getField parsed "high_temperatureC")
      high_at_validTimeLocal :=
        coalesce (getField parsed "high_at_validTimeLocal") Json.jnull
      last_seen_temperatureC := numOrNull (getField parsed "last_seen_temperatureC")
      last_seen_validTimeLocal :=
        coalesce (getField parsed "last_seen_validTimeLocal") Json.jnull }

/-- readDailyHigh (src/utils.ts lines 55-89). The file system and the
JSON parser are abstracted into the argument: error covers a missing
file or a text JSON.parse rejects, ok carries the parsed document. Every
failure path lands in the catch branch and yields the zero aggregate. -/
def readDailyHigh (file : Except Unit Json) (dateLocal timeZone : String) :
    DailyHighJS :=
  match file with
  | Except.error _ => zeroDailyHighJS dateLocal timeZone
  | Except.ok parsed => readDailyHighJson parsed dateLocal timeZone

/-- Encoding of an optional number as a JSON field value (null when
absent), as JSON.stringify renders the typed record. -/
def encOptNum : Option ℚ → Json
  | some q => Json.jnum q
  | none => Json.jnull

/-- Encoding of an optional string as a JSON field value. -/
def encOptStr : Option String → Json
  | some s => Json.jstr s
  | none => Json.jnull

/-- writeDailyHigh (src/utils.ts lines 91-96): the JSON document that
JSON.stringify(record) serializes; writing then re-reading the file is
the identity on this document, so the file transport is elided. -/
def writeDailyHigh (record : DailyHighRecord) : Json :=
  Json.jobj [("date_local", Json.jstr record.date_local),
    ("timezone", Json.jstr record.timezone),
    ("samples", Json.jnum record.samples),
    ("high_temperatureC", encOptNum record.high_temperatureC),
    ("high_at_validTimeLocal", encOptStr record.high_at_validTimeLocal),
    ("last_seen_temperatureC", encOptNum record.last_seen_temperatureC),
    ("last_seen_validTimeLocal", encOptStr record.last_seen_validTimeLocal)]

/-- Canonical embedding of a typed DailyHighRecord into the runtime
record shape, used to compare a loaded record with the record saved. -/
def toJS (record : DailyHighRecord) : DailyHighJS :=
  { date_local := Json.jstr record.date_local
    timezone := Json.jstr record.timezone
    samples := Json.jnum record.samples
    high_temperatureC := encOptNum record.high_temperatureC
    high_at_validTimeLocal := encOptStr record.high_at_validTimeLocal
    last_seen_temperatureC := encOptNum record.last_seen_temperatureC
    last_seen_validTimeLocal := encOptStr record.last_seen_validTimeLocal }

/-- Example prior aggregate with a recorded high of 10 at a known time. -/
def aggEx : DailyHighRecord :=
  { date_local := "2024-05-01", timezone := "Europe/London", samples := 1
    high_temperatureC := some 10
    high_at_validTimeLocal := some "2024-05-01T06:00:00"
    last_seen_temperatureC := some 10
    last_seen_validTimeLocal := some "2024-05-01T06:00:00" }

/-- Example entry carrying an id and no sub-records. -/
def entryEx1 : CompositeEntry :=
  { id := some "X", v3LocationPoint := none, v3WxObservationsCurrent := none }

/-- Example London/GB entry without an id. -/
def entryEx2 : CompositeEntry :=
  { id := none
    v3LocationPoint := some { location :=
      { city := some "London", displayContext := none, ianaTimeZone := none,
        pwsId := none, countryCode := some "GB" } }
    v3WxObservationsCurrent := none }

/-- Example timezone whose civil map is constant. -/
def tzEx : TimeZone := ⟨fun _ => (2024, 5, 1)⟩

/-- Example corrupt aggregate document: samples present but non numeric,
high_temperatureC non numeric, date_local missing. -/
def corruptDoc : Json :=
  Json.jobj [("samples", Json.jstr "three"), ("high_temperatureC", Json.jstr "warm")]

/-- Helper: digitChar always yields a decimal digit character. -/
theorem digitChar_isDigit (n : ℕ) : (digitChar n).isDigit = true := by
  rcases n with _|_|_|_|_|_|_|_|_|_|n <;> rfl

/-- Helper: a successful find? splits the list at the first match. -/
theorem find?_eq_some_split {α : Type} (p : α → Bool) :
    ∀ (l : List α) (e : α), l.find? p = some e →
      ∃ l₁ l₂, l = l₁ ++ e :: l₂ ∧ p e = true ∧ ∀ x ∈ l₁, p x = false := by
  intro l
  induction l with
  | nil => intro e h; simp [List.find?] at h
  | cons a t ih =>
    intro e h
    by_cases hpa : p a = true
    · have hae : a = e := by
        rw [List.find?_cons_of_pos _ hpa] at h
        exact Option.some.inj h
      subst hae
      exact ⟨[], t, rfl, hpa, by intro x hx; cases hx⟩
    · have hpa2 : p a = false := by
        cases hp : p a
        · rfl
        · exact absurd hp hpa
      have h2 : t.find? p = some e := by
        rwa [List.find?_cons_of_neg _ (by simp [hpa2])] at h
      obtain ⟨l₁, l₂, hsplit, hpe, hall⟩ := ih e h2
      refine ⟨a :: l₁, l₂, by rw [hsplit]; rfl, hpe, ?_⟩
      intro x hx
      rcases List.mem_cons.mp hx with hx | hx
      · rwa [hx]
      · exact hall x hx

/-- Helper: numOrNull yields null or a number. -/
theorem numOrNull_shape (v : Option Json) :
    numOrNull v = Json.jnull ∨ ∃ q, numOrNull v = Json.jnum q := by
  rcases v with _ | v
  · exact Or.inl rfl
  · rcases v with _ | b | q | s | l | f
    · exact Or.inl rfl
    · exact Or.inl rfl
    · exact Or.inr ⟨q, rfl⟩
    · exact Or.inl rfl
    · exact Or.inl rfl
    · exact Or.inl rfl

/-- Helper: numOrNull maps every non numeric value to null. -/
theorem numOrNull_eq_null (v : Json) (hv : ∀ q, v ≠ Json.jnum q) :
    numOrNull (some v) = Json.jnull := by
  rcases v with _ | b | q | s | l | f
  · rfl
  · rfl
  · exact absurd rfl (hv q)
  · rfl
  · rfl
  · rfl

/-- C1 counterexample: prior high 10 recorded at a timestamp, new sample
of temperature 15 with an absent timestamp. The high is replaced, but
high_at_validTimeLocal keeps the prior timestamp instead of taking the
new sample value (which is absent, hence null), contradicting the claim
that on replacement both fields take the new sample values. -/
theorem updateDailyHigh_c1_counterexample :
    (updateDailyHigh aggEx "2024-05-01" "Europe/London" (some 15) none).high_temperatureC
        = some 15 ∧
    (updateDailyHigh aggEx "2024-05-01" "Europe/London" (some 15) none).high_at_validTimeLocal
        ≠ none := by
  constructor
  · decide
  · decide

/-- C1 amended: the stored high pair is replaced exactly when the sample
temperature is present and the stored high is unset or strictly smaller;
on replacement high_temperatureC takes the new temperature and
high_at_validTimeLocal takes the new sample timestamp when that
timestamp is present, otherwise it retains the previously recorded one;
a tie or lower reading, and a sample without a numeric temperature,
leave both stored fields unchanged. -/
theorem updateDailyHigh_high_rule (prev : DailyHighRecord) (d tz : String)
    (tc : ℚ) (vt : Option String) :
    ((prev.high_temperatureC = none ∨ ∃ h, prev.high_temperatureC = some h ∧ h < tc) →
      (updateDailyHigh prev d tz (some tc) vt).high_temperatureC = some tc ∧
      (updateDailyHigh prev d tz (some tc) vt).high_at_validTimeLocal =
        (Option.orElse vt fun _ => prev.high_at_validTimeLocal)) ∧
    ((∃ h, prev.high_temperatureC = some h ∧ tc ≤ h) →
      (updateDailyHigh prev d tz (some tc) vt).high_temperatureC =
        prev.high_temperatureC ∧
      (updateDailyHigh prev d tz (some tc) vt).high_at_validTimeLocal =
        prev.high_at_validTimeLocal) ∧
    ((updateDailyHigh prev d tz none vt).high_temperatureC =
        prev.high_temperatureC ∧
      (updateDailyHigh prev d tz none vt).high_at_validTimeLocal =
        prev.high_at_validTimeLocal) := by
  refine ⟨?_, ?_, ?_, ?_⟩
  · rintro (hnone | ⟨h0, hh, hlt⟩)
    · constructor <;> simp [updateDailyHigh, hnone]
    · constructor <;> simp [updateDailyHigh, hh, hlt]
  · rintro ⟨h0, hh, hle⟩
    have hnlt : ¬ h0 < tc := not_lt.mpr hle
    constructor <;> simp [updateDailyHigh, hh, hnlt]
  · simp [updateDailyHigh]
  · simp [updateDailyHigh]

/-- C1 witness: a 15 degree sample with a timestamp beats a stored high
of 10 and installs both new values. -/
theorem updateDailyHigh_high_rule_witness :
    (aggEx.high_temperatureC = none ∨
      ∃ h, aggEx.high_temperatureC = some h ∧ h < 15) ∧
    ((updateDailyHigh aggEx "2024-05-01" "Europe/London" (some 15)
        (some "2024-05-01T14:00:00")).high_temperatureC = some 15 ∧
      (updateDailyHigh aggEx "2024-05-01" "Europe/London" (some 15)
        (some "2024-05-01T14:00:00")).high_at_validTimeLocal =
        (Option.orElse (some "2024-05-01T14:00:00")
          fun _ => aggEx.high_at_validTimeLocal)) :=
  ⟨Or.inr ⟨10, rfl, by norm_num⟩,
    (updateDailyHigh_high_rule aggEx "2024-05-01" "Europe/London" 15
      (some "2024-05-01T14:00:00")).1 (Or.inr ⟨10, rfl, by norm_num⟩)⟩

/-- C5: the last-seen pair is overwritten unconditionally with the new
sample values, whether or not the sample set a new high; an absent
temperature yields null. -/
theorem updateDailyHigh_last_seen (prev : DailyHighRecord) (d tz : String)
    (t : Option ℚ) (vt : Option String) :
    (updateDailyHigh prev d tz t vt).last_seen_temperatureC = t ∧
    (updateDailyHigh prev d tz t vt).last_seen_validTimeLocal = vt ∧
    (updateDailyHigh prev d tz none vt).last_seen_temperatureC = none :=
  ⟨rfl, rfl, rfl⟩

/-- C8: every update increments samples by exactly one, also when the
sample has no numeric temperature, so the persisted count never
decreases across successful cycles with a fixed day key. -/
theorem updateDailyHigh_samples_increment (prev : DailyHighRecord) (d tz : String)
    (t : Option ℚ) (vt : Option String) :
    (updateDailyHigh prev d tz t vt).samples = prev.samples + 1 ∧
    prev.samples ≤ (updateDailyHigh prev d tz t vt).samples := by
  have h : (updateDailyHigh prev d tz t vt).samples = prev.samples + 1 := rfl
  exact ⟨h, by rw [h]; linarith⟩

/-- C2 counterexample: with an always failing transport and three
attempts the backoff sleeps performed are 500, 1000 and 2000 ms, a sleep
following the third and final failure as well, so the waits are not only
the two between attempts, and the total backoff before the failure is
reported is 3500 ms, not 1500 ms. -/
theorem fetchWithRetry_c2_counterexample :
    (fetchWithRetry (fun n => (Except.error n : Except ℕ Unit)) 3).1 =
      [500, 1000, 2000] ∧
    (fetchWithRetry (fun n => (Except.error n : Except ℕ Unit)) 3).1 ≠
      [500, 1000] ∧
    ((fetchWithRetry (fun n => (Except.error n : Except ℕ Unit)) 3).1).sum ≠ 1500 := by
  refine ⟨by decide, by decide, by decide⟩

/-- C2 amended: with an always failing transport and maxAttempts 3,
fetchWithRetry makes exactly 3 attempts and fails with the last observed
error; one backoff wait follows every failed attempt, the last included:
500 ms, 1000 ms and 2000 ms, for 3500 ms of total elapsed backoff before
the failure is reported. -/
theorem fetchWithRetry_exhaustion (ε ρ : Type) (f : ℕ → ε) :
    fetchWithRetry (fun n => (Except.error (f n) : Except ε ρ)) 3 =
      ([500, 1000, 2000], 3, Except.error (some (f 3))) := rfl

/-- C3: selectLocation returns the first entry whose id equals targetId
when one exists; with no id match it returns the first London/GB entry
when one exists; with neither it returns none. As a Lean function of
exactly its two arguments it is pure and deterministic. -/
theorem selectLocation_policy (entries : List CompositeEntry) (targetId : String) :
    ((∃ e ∈ entries, e.id = some targetId) →
      ∃ l₁ e l₂, entries = l₁ ++ e :: l₂ ∧ e.id = some targetId ∧
        (∀ x ∈ l₁, x.id ≠ some targetId) ∧
        selectLocation entries targetId = some e) ∧
    ((∀ e ∈ entries, e.id ≠ some targetId) →
      (∃ e ∈ entries, isLondonGB e = true) →
      ∃ l₁ e l₂, entries = l₁ ++ e :: l₂ ∧ isLondonGB e = true ∧
        (∀ x ∈ l₁, isLondonGB x = false) ∧
        selectLocation entries targetId = some e) ∧
    ((∀ e ∈ entries, e.id ≠ some targetId ∧ isLondonGB e = false) →
      selectLocation entries targetId = none) := by
  refine ⟨?_, ?_, ?_⟩
  · rintro ⟨e0, he0, hid⟩
    rcases hfind : entries.find? (fun x => x.id == some targetId) with _ | e
    · exfalso
      have := List.find?_eq_none.mp hfind e0 he0
      simp [hid] at this
    · obtain ⟨l₁, l₂, hsplit, hpe, hall⟩ := find?_eq_some_split _ entries e hfind
      refine ⟨l₁, e, l₂, hsplit, by simpa using hpe, ?_, ?_⟩
      · intro x hx
        have := hall x hx
        simpa using this
      · simp [selectLocation, hfind]
  · intro hnone hex
    have hfindid : entries.find? (fun x => x.id == some targetId) = none := by
      apply List.find?_eq_none.mpr
      intro x hx
      simpa using hnone x hx
    rcases hfind : entries.find? isLondonGB with _ | e
    · exfalso
      obtain ⟨e0, he0, hl⟩ := hex
      have := List.find?_eq_none.mp hfind e0 he0
      simp [hl] at this
    · obtain ⟨l₁, l₂, hsplit, hpe, hall⟩ := find?_eq_some_split _ entries e hfind
      exact ⟨l₁, e, l₂, hsplit, hpe, hall, by simp [selectLocation, hfindid, hfind]⟩
  · intro hall
    have h1 : entries.find? (fun x => x.id == some targetId) = none := by
      apply List.find?_eq_none.mpr
      intro x hx
      simpa using (hall x hx).1
    have h2 : entries.find? isLondonGB = none := by
      apply List.find?_eq_none.mpr
      intro x hx
      simp [(hall x hx).2]
    simp [selectLocation, h1, h2]

/-- C3 witness: with no id match, selectLocation falls back to the first
London/GB entry of a concrete two-entry list. -/
theorem selectLocation_policy_witness :
    (∀ e ∈ [entryEx1, entryEx2], e.id ≠ some "Y") ∧
    ∃ l₁ e l₂, [entryEx1, entryEx2] = l₁ ++ e :: l₂ ∧ isLondonGB e = true ∧
      (∀ x ∈ l₁, isLondonGB x = false) ∧
      selectLocation [entryEx1, entryEx2] "Y" = some e :=
  ⟨by decide,
    (selectLocation_policy [entryEx1, entryEx2] "Y").2.1 (by decide) (by decide)⟩

/-- C4: a read or parse failure of any kind makes readDailyHigh return
the zero-valued aggregate seeded with the fallback day key and timezone,
samples 0 and all four nullable fields null, without throwing (the
embedding is a total function). -/
theorem readDailyHigh_failure_zero (d tz : String) :
    readDailyHigh (Except.error ()) d tz = toJS
      { date_local := d, timezone := tz, samples := 0,
        high_temperatureC := none, high_at_validTimeLocal := none,
        last_seen_temperatureC := none, last_seen_validTimeLocal := none } := rfl

/-- C9: saving a well-typed aggregate and loading it back yields the
same record, for any fallback seed: the load of the serialized document
equals the canonical embedding of the record saved. -/
theorem readDailyHigh_writeDailyHigh_roundtrip (r : DailyHighRecord) (d tz : String) :
    readDailyHigh (Except.ok (writeDailyHigh r)) d tz = toJS r := by
  rcases r with ⟨rd, rtz, rs, rh, rha, rl, rlt⟩
  rcases rh with _ | q1 <;> rcases rha with _ | s1 <;> rcases rl with _ | q2 <;>
    rcases rlt with _ | s2 <;> rfl

/-- C10: on any successfully parsed document the loaded record is
sanitized field by field: the two temperature fields are null or numeric
(any non numeric value in the file becomes null), a missing date_local,
timezone, samples or timestamp field falls back to the seed day key, the
seed timezone, samples 0 and null timestamps, and a parsed null document
(whose property accesses throw into the catch branch) yields the zero
aggregate. Every field of the result is a JSON value and never
undefined, the sanitizing operations coalesce and numOrNull being total
into Json. -/
theorem readDailyHigh_sanitizes (j : Json) (d tz : String) :
    ((readDailyHigh (Except.ok j) d tz).high_temperatureC = Json.jnull ∨
      ∃ q, (readDailyHigh (Except.ok j) d tz).high_temperatureC = Json.jnum q) ∧
    ((readDailyHigh (Except.ok j) d tz).last_seen_temperatureC = Json.jnull ∨
      ∃ q, (readDailyHigh (Except.ok j) d tz).last_seen_temperatureC = Json.jnum q) ∧
    (j ≠ Json.jnull →
      (getField j "date_local" = none →
        (readDailyHigh (Except.ok j) d tz).date_local = Json.jstr d) ∧
      (getField j "timezone" = none →
        (readDailyHigh (Except.ok j) d tz).timezone = Json.jstr tz) ∧
      (getField j "samples" = none →
        (readDailyHigh (Except.ok j) d tz).samples = Json.jnum 0) ∧
      (getField j "high_at_validTimeLocal" = none →
        (readDailyHigh (Except.ok j) d tz).high_at_validTimeLocal = Json.jnull) ∧
      (getField j "last_seen_validTimeLocal" = none →
        (readDailyHigh (Except.ok j) d tz).last_seen_validTimeLocal = Json.jnull) ∧
      (∀ v, getField j "high_temperatureC" = some v → (∀ q, v ≠ Json.jnum q) →
        (readDailyHigh (Except.ok j) d tz).high_temperatureC = Json.jnull) ∧
      (∀ v, getField j "last_seen_temperatureC" = some v → (∀ q, v ≠ Json.jnum q) →
        (readDailyHigh (Except.ok j) d tz).last_seen_temperatureC = Json.jnull)) ∧
    (j = Json.jnull → readDailyHigh (Except.ok j) d tz = zeroDailyHighJS d tz) := by
  rcases j with _ | b | q | s | l | f
  · exact ⟨Or.inl rfl, Or.inl rfl, fun h => absurd rfl h, fun _ => rfl⟩
  · refine ⟨Or.inl rfl, Or.inl rfl, fun _ => ?_, fun h => Json.noConfusion h⟩
    exact ⟨fun _ => rfl, fun _ => rfl, fun _ => rfl, fun _ => rfl, fun _ => rfl,
      fun v hv _ => by simp [getField] at hv,
      fun v hv _ => by simp [getField] at hv⟩
  · refine ⟨Or.inl rfl, Or.inl rfl, fun _ => ?_, fun h => Json.noConfusion h⟩
    exact ⟨fun _ => rfl, fun _ => rfl, fun _ => rfl, fun _ => rfl, fun _ => rfl,
      fun v hv _ => by simp [getField] at hv,
      fun v hv _ => by simp [getField] at hv⟩
  · refine ⟨Or.inl rfl, Or.inl rfl, fun _ => ?_, fun h => Json.noConfusion h⟩
    exact ⟨fun _ => rfl, fun _ => rfl, fun _ => rfl, fun _ => rfl, fun _ => rfl,
      fun v hv _ => by simp [getField] at hv,
      fun v hv _ => by simp [getField] at hv⟩
  · refine ⟨Or.inl rfl, Or.inl rfl, fun _ => ?_, fun h => Json.noConfusion h⟩
    exact ⟨fun _ => rfl, fun _ => rfl, fun _ => rfl, fun _ => rfl, fun _ => rfl,
      fun v hv _ => by simp [getField] at hv,
      fun v hv _ => by simp [getField] at hv⟩
  · refine ⟨numOrNull_shape _, numOrNull_shape _, fun _ => ?_,
      fun h => Json.noConfusion h⟩
    refine ⟨?_, ?_, ?_, ?_, ?_, ?_, ?_⟩
    · intro h
      show coalesce (getField (Json.jobj f) "date_local") (Json.jstr d) = Json.jstr d
      rw [h]
      rfl
    · intro h
      show coalesce (getField (Json.jobj f) "timezone") (Json.jstr tz) = Json.jstr tz
      rw [h]
      rfl
    · intro h
      show coalesce (getField (Json.jobj f) "samples") (Json.jnum 0) = Json.jnum 0
      rw [h]
      rfl
    · intro h
      show coalesce (getField (Json.jobj f) "high_at_validTimeLocal") Json.jnull =
        Json.jnull
      rw [h]
      rfl
    · intro h
      show coalesce (getField (Json.jobj f) "last_seen_validTimeLocal") Json.jnull =
        Json.jnull
      rw [h]
      rfl
    · intro v hv hneq
      show numOrNull (getField (Json.jobj f) "high_temperatureC") = Json.jnull
      rw [hv]
      exact numOrNull_eq_null v hneq
    · intro v hv hneq
      show numOrNull (getField (Json.jobj f) "last_seen_temperatureC") = Json.jnull
      rw [hv]
      exact numOrNull_eq_null v hneq

/-- C10 witness: a document missing date_local and carrying non numeric
samples and high values is sanitized to the fallback day key and a null
high. -/
theorem readDailyHigh_sanitizes_witness :
    (corruptDoc ≠ Json.jnull) ∧
    (getField corruptDoc "date_local" = none) ∧
    ((readDailyHigh (Except.ok corruptDoc) "2024-05-01" "Europe/London").date_local =
      Json.jstr "2024-05-01") ∧
    ((readDailyHigh (Except.ok corruptDoc) "2024-05-01" "Europe/London").high_temperatureC =
      Json.jnull) :=
  ⟨fun h => Json.noConfusion h, rfl,
    ((readDailyHigh_sanitizes corruptDoc "2024-05-01" "Europe/London").2.2.1
      (fun h => Json.noConfusion h)).1 rfl,
    ((readDailyHigh_sanitizes corruptDoc "2024-05-01" "Europe/London").2.2.1
      (fun h => Json.noConfusion h)).2.2.2.2.2.1 (Json.jstr "warm") rfl
      (fun _ h => Json.noConfusion h)⟩

/-- Helper: every formatted date string has the YYYY-MM-DD shape. -/
theorem formatDateParts_shape (date : ℤ) (tz : TimeZone) :
    isYYYYMMDD (formatDateParts date tz) = true := by
  simp only [formatDateParts, isYYYYMMDD, String.toList]
  simp [digitChar_isDigit]

/-- C6: getLocalDateString is total (a Lean function), always yields a
calendar-date string of YYYY-MM-DD shape computed by the civil rules of
the zone, an absent, empty or unparsable instant degrading to the
current time in the given zone, and a parsable instant being the one
formatted. -/
theorem getLocalDateString_spec (parseDate : String → Option ℤ) (now : ℤ)
    (vt : Option String) (tz : TimeZone) :
    isYYYYMMDD (getLocalDateString parseDate now vt tz) = true ∧
    (vt = none → getLocalDateString parseDate now vt tz = formatDateParts now tz) ∧
    (∀ s, vt = some s → s ≠ "" → parseDate s = none →
      getLocalDateString parseDate now vt tz = formatDateParts now tz) ∧
    (∀ s t, vt = some s → s ≠ "" → parseDate s = some t →
      getLocalDateString parseDate now vt tz = formatDateParts t tz) := by
  refine ⟨formatDateParts_shape _ _, ?_, ?_, ?_⟩
  · intro h
    subst h
    rfl
  · intro s hs hne hp
    subst hs
    simp [getLocalDateString, hne, hp]
  · intro s t hs hne hp
    subst hs
    simp [getLocalDateString, hne, hp]

/-- C6 witness: an unparsable timestamp in a concrete zone falls back to
formatting the current instant, and the output is well shaped. -/
theorem getLocalDateString_spec_witness :
    isYYYYMMDD (getLocalDateString (fun _ => none) 0 (some "not-a-date") tzEx) = true ∧
    ("not-a-date" : String) ≠ "" ∧
    getLocalDateString (fun _ => none) 0 (some "not-a-date") tzEx =
      formatDateParts 0 tzEx :=
  ⟨(getLocalDateString_spec (fun _ => none) 0 (some "not-a-date") tzEx).1,
    by decide,
    (getLocalDateString_spec (fun _ => none) 0 (some "not-a-date") tzEx).2.2.1
      "not-a-date" rfl (by decide) rfl⟩

/-- C7: for a positive poll interval the computed first-cycle delay is
nonnegative (it lives in ℕ) and less than one interval, now plus the
delay lands exactly on a multiple of the interval, and the delay is zero
when now is already exactly on an interval boundary. -/
theorem calculateNextDelay_aligns (now m : ℕ) (hm : 0 < m) :
    calculateNextDelay now m < m * 60 * 1000 ∧
    (now + calculateNextDelay now m) % (m * 60 * 1000) = 0 ∧
    (now % (m * 60 * 1000) = 0 → calculateNextDelay now m = 0) := by
  have hms : 0 < m * 60 * 1000 := by positivity
  have hcalc : calculateNextDelay now m =
      ((now + m * 60 * 1000 - 1) / (m * 60 * 1000)) * (m * 60 * 1000) - now := by
    simp [calculateNextDelay]
  set ms := m * 60 * 1000 with hmsdef
  set q := (now + ms - 1) / ms with hqdef
  set r := (now + ms - 1) % ms with hrdef
  have hdm : ms * q + r = now + ms - 1 := Nat.div_add_mod _ _
  have hr : r < ms := Nat.mod_lt _ hms
  have hqm : q * ms = ms * q := Nat.mul_comm q ms
  set P := ms * q with hPdef
  rw [hqm] at hcalc
  have hub : P ≤ now + ms - 1 := by omega
  have hlb : now ≤ P := by omega
  refine ⟨?_, ?_, ?_⟩
  · rw [hcalc]
    omega
  · rw [hcalc]
    have hnp : now + (P - now) = P := by omega
    rw [hnp, hPdef]
    exact Nat.mul_mod_right ms q
  · intro h0
    rw [hcalc]
    have hd1 : ms ∣ P := ⟨q, hPdef⟩
    have hd2 : ms ∣ now := Nat.dvd_of_mod_eq_zero h0
    exact Nat.eq_zero_of_dvd_of_lt (Nat.dvd_sub' hd1 hd2) (by omega)

/-- C7 witness: with a 10 minute interval and a concrete clock value the
delay is below 600000 ms and aligns now to a boundary. -/
theorem calculateNextDelay_aligns_witness :
    (0 < 10) ∧
    (calculateNextDelay 123456 10 < 10 * 60 * 1000 ∧
      (123456 + calculateNextDelay 123456 10) % (10 * 60 * 1000) = 0 ∧
      (123456 % (10 * 60 * 1000) = 0 → calculateNextDelay 123456 10 = 0)) :=
  ⟨by decide, calculateNextDelay_aligns 123456 10 (by decide)⟩
